import Mathlib

/-!
# Verification of the PGx clinical-trial simulation core

Shallow embedding of `src/prototype/engine.py` and
`src/prototype/models/pbpk_model.py` (population generator, 3-compartment
PBPK model, population aggregation, safety-margin analysis).

Conventions:
* Python floats are modelled as `ℚ`; transcendental primitives
  (`np.sqrt`, `**` with fractional exponent, `np.log`) are supplied through
  a `NumericOracle` parameter, and random draws are explicit inputs.
* JSON dictionaries are association lists (`List (String × α)`).
* The adaptive ODE integrator (`scipy.integrate.odeint`) is an abstract
  function parameter; the right-hand side of the ODE system itself is
  embedded exactly.
-/

namespace PGx

/-- Allele → frequency table (one ethnicity, one gene). -/
abbrev AlleleFreqs := List (String × ℚ)

/-- Gene → allele-frequency table (one ethnicity). -/
abbrev GeneTable := List (String × AlleleFreqs)

/-- Ethnicity name → gene table; contents of `allele_frequencies.json`. -/
abbrev AlleleData := List (String × GeneTable)

/-- Allele → activity score (one gene). -/
abbrev ScoreTable := List (String × ℚ)

/-- Gene → score table; contents of `activity_scores.json`. -/
abbrev ActivityData := List (String × ScoreTable)

/-- Parsed `allele_frequencies.json`: the top-level key is optional,
`data.get("allele_frequencies", {})`. -/
structure AlleleFile where
  allele_frequencies : Option AlleleData

/-- Parsed `activity_scores.json`: the top-level key is optional,
`data.get("activity_scores", {})`. -/
structure ScoreFile where
  activity_scores : Option ActivityData

/-- Embeds engine.load_allele_frequencies: raise `FileNotFoundError` when the
backing file is absent, otherwise return the (defaulted) dictionary. -/
def load_allele_frequencies (file : Option AlleleFile) : Except String AlleleData :=
  match file with
  | none => .error "FileNotFoundError: Allele frequency data file not found"
  | some f => .ok (f.allele_frequencies.getD [])

/-- Embeds engine.load_activity_scores: raise `FileNotFoundError` when the
backing file is absent, otherwise return the (defaulted) dictionary. -/
def load_activity_scores (file : Option ScoreFile) : Except String ActivityData :=
  match file with
  | none => .error "FileNotFoundError: Activity score data file not found"
  | some f => .ok (f.activity_scores.getD [])

/-- Module-level state after import: the two cached tables and whether the
`except FileNotFoundError` branch ran (printing a warning). -/
structure ModuleState where
  alleleData : AlleleData
  activityData : ActivityData
  warned : Bool
deriving DecidableEq

/-- The module-level `try/except` around the data load in `engine.py`
(lines 96–102): on any `FileNotFoundError` from either loader, print a
warning and fall back to empty dictionaries. -/
def moduleInit (af : Option AlleleFile) (sf : Option ScoreFile) : ModuleState :=
  match load_allele_frequencies af, load_activity_scores sf with
  | .ok a, .ok s => ⟨a, s, false⟩
  | _, _ => ⟨[], [], true⟩

/-- Embeds engine.Ethnicity. -/
inductive Ethnicity
  | EAST_ASIAN
  | EUROPEAN
  | AFRICAN
  | LATINO
  | CENTRAL_SOUTH_ASIAN
deriving DecidableEq

/-- Embeds Ethnicity.value. -/
def Ethnicity.value : Ethnicity → String
  | .EAST_ASIAN => "East Asian"
  | .EUROPEAN => "European"
  | .AFRICAN => "African"
  | .LATINO => "Latino"
  | .CENTRAL_SOUTH_ASIAN => "Central/South Asian"

/-- Embeds engine.MetabolizerStatus. -/
inductive MetabolizerStatus
  | POOR
  | INTERMEDIATE
  | NORMAL
  | ULTRA_RAPID
deriving DecidableEq

/-- Embeds engine.get_allele_frequencies: unknown ethnicity falls back to
"East Asian"; unknown gene falls back to the monomorphic `{"*1": 1.0}`. -/
def get_allele_frequencies (data : AlleleData) (ethnicity : Ethnicity)
    (gene : String) : AlleleFreqs :=
  let eth_name := if (data.lookup ethnicity.value).isSome then ethnicity.value
    else "East Asian"
  match ((data.lookup eth_name).getD []).lookup gene with
  | none => [("*1", 1)]
  | some freqs => freqs

/-- Embeds engine.get_activity_score: default 1.0 for an unknown gene or allele. -/
def get_activity_score (data : ActivityData) (gene allele : String) : ℚ :=
  match data.lookup gene with
  | none => 1
  | some tbl => (tbl.lookup allele).getD 1

/-- Embeds engine.PopulationGenerator._classify_metabolizer. -/
def classify_metabolizer (activity_score : ℚ) : MetabolizerStatus :=
  if activity_score ≤ 0.25 then .POOR
  else if activity_score ≤ 1.0 then .INTERMEDIATE
  else if activity_score ≤ 2.0 then .NORMAL
  else .ULTRA_RAPID

/-- Transcendental float primitives of numpy, supplied abstractly: the code
calls `np.sqrt`, fractional `**`, `np.log`, and `np.log(2)`; their values are
irrational in general, so the embedding takes them as parameters. -/
structure NumericOracle where
  sqrtQ : ℚ → ℚ
  powQ : ℚ → ℚ → ℚ
  ln : ℚ → ℚ
  ln2 : ℚ

/-- Models np.random.choice(items, p=probs) by inverse-CDF sampling on an
explicit uniform draw `u`: walk down the list subtracting probabilities; an
out-of-range draw returns the last item, an empty list the default `d`. -/
def pickD {α : Type} (d : α) : List (α × ℚ) → ℚ → α
  | [], _ => d
  | (a, p) :: rest, u => if u < p then a else pickD a rest (u - p)

/-- Embeds Python tuple(sorted([a, b])) on two strings. -/
def sortPair (a b : String) : String × String :=
  if a ≤ b then (a, b) else (b, a)

/-- Embeds engine.PopulationGenerator._sample_genotype: two alleles drawn
independently (Hardy–Weinberg) from the ethnicity/gene frequency table,
returned as a sorted pair; `u1`, `u2` are the two uniform draws. -/
def sample_genotype (data : AlleleData) (gene : String) (ethnicity : Ethnicity)
    (u1 u2 : ℚ) : String × String :=
  let allele_freqs := get_allele_frequencies data ethnicity gene
  let allele1 := pickD "" allele_freqs u1
  let allele2 := pickD "" allele_freqs u2
  sortPair allele1 allele2

/-- Embeds engine.PopulationGenerator._calculate_activity_score: sum of the two
alleles' looked-up scores. -/
def calculate_activity_score (scores : ActivityData) (gene : String)
    (genotype : String × String) : ℚ :=
  get_activity_score scores gene genotype.1 + get_activity_score scores gene genotype.2

/-- Gender category ('M' / 'F'). -/
inductive Gender
  | M
  | F
deriving DecidableEq

/-- Embeds the engine.PopulationGenerator configuration (constructor arguments that
the sampling methods read). -/
structure GeneratorConfig where
  n_subjects : ℕ
  ethnicity_distribution : List (Ethnicity × ℚ)
  age_range : ℕ × ℕ
  gender_ratio : ℚ
  weight_mean : ℚ
  weight_sd : ℚ
  base_cl_int : ℚ

/-- Embeds engine.PopulationGenerator._sample_anthropometrics: the two normal
draws are modelled as `mean + sd·z` with explicit standard-normal draws
`z_weight`, `z_height`; weight is clamped to [40, 150], height to
[140, 200], and BMI is derived. -/
def sample_anthropometrics (cfg : GeneratorConfig) (gender : Gender) (age : ℕ)
    (z_weight z_height : ℚ) : ℚ × ℚ × ℚ :=
  let weight_adj : ℚ := if gender = .M then 1.1 else 0.9
  let height_mean : ℚ := if gender = .M then 175 else 162
  let height_sd : ℚ := if gender = .M then 7 else 6
  let age_factor : ℚ := 1.0 + 0.005 * max 0 ((age : ℚ) - 40)
  let weight := cfg.weight_mean * weight_adj * age_factor + cfg.weight_sd * z_weight
  let weight := max 40 (min weight 150)
  let height := height_mean + height_sd * z_height
  let height := max 140 (min height 200)
  let bmi := weight / (height / 100) ^ 2
  (weight, height, bmi)

/-- Embeds pbpk_model.PhysiologicalParameters. -/
structure PhysiologicalParameters where
  body_weight : ℚ
  v_plasma : ℚ
  v_liver : ℚ
  q_liver : ℚ
  cl_int : ℚ
  cl_renal : ℚ
  activity_score : ℚ
deriving DecidableEq

/-- Embeds engine.PopulationGenerator._generate_physiological_params: weight- and
age-scaled volumes and flows; intrinsic clearance is
`base_cl_int · activity_score · lognormal(0, 0.3)` with the lognormal draw
`eta` explicit. `O.powQ` models the float `** 0.75`. -/
def generate_physiological_params (O : NumericOracle) (cfg : GeneratorConfig)
    (weight : ℚ) (age : ℕ) (activity_score : ℚ) (eta : ℚ) :
    PhysiologicalParameters :=
  let weight_ratio := weight / 70.0
  let v_plasma := 0.047 * weight
  let v_liver := 0.025 * weight
  let age_factor := 1.0 - 0.1 * max 0 (((age : ℚ) - 60) / 20)
  let q_liver := 90 * O.powQ weight_ratio 0.75 * age_factor
  let individual_variability := eta
  let cl_int := cfg.base_cl_int * activity_score * individual_variability
  let cl_renal := 0.0
  { body_weight := weight
    v_plasma := v_plasma
    v_liver := v_liver
    q_liver := q_liver
    cl_int := cl_int
    cl_renal := cl_renal
    activity_score := activity_score }

/-- Embeds engine.IndividualCharacteristics. -/
structure IndividualCharacteristics where
  subject_id : ℕ
  age : ℕ
  gender : Gender
  ethnicity : Ethnicity
  weight : ℚ
  height : ℚ
  bmi : ℚ
  cyp2c19_genotype : String × String
  cyp3a4_genotype : String × String
  cyp2c19_activity_score : ℚ
  cyp3a4_activity_score : ℚ
  combined_activity_score : ℚ
  metabolizer_status : MetabolizerStatus
  phys_params : PhysiologicalParameters

/-- The random draws one loop iteration of `generate` consumes; values of
`np.random.random`, `np.random.randint`, `np.random.normal`,
`np.random.choice` and `np.random.lognormal` are explicit. -/
structure IndividualDraws where
  u_ethnicity : ℚ
  u_gender : ℚ
  age : ℕ
  z_weight : ℚ
  z_height : ℚ
  u_cyp2c19_1 : ℚ
  u_cyp2c19_2 : ℚ
  u_cyp3a4_1 : ℚ
  u_cyp3a4_2 : ℚ
  eta : ℚ

/-- One iteration of the loop body of `engine.PopulationGenerator.generate`
(steps 1–7), producing the `i`-th individual from its random draws. -/
def generateIndividual (O : NumericOracle) (data : AlleleData)
    (scores : ActivityData) (cfg : GeneratorConfig) (i : ℕ)
    (d : IndividualDraws) : IndividualCharacteristics :=
  let ethnicity := pickD Ethnicity.EAST_ASIAN cfg.ethnicity_distribution d.u_ethnicity
  let gender := if d.u_gender < cfg.gender_ratio then Gender.M else Gender.F
  let age := d.age
  let (weight, height, bmi) := sample_anthropometrics cfg gender age d.z_weight d.z_height
  let cyp2c19_genotype := sample_genotype data "CYP2C19" ethnicity d.u_cyp2c19_1 d.u_cyp2c19_2
  let cyp3a4_genotype := sample_genotype data "CYP3A4" ethnicity d.u_cyp3a4_1 d.u_cyp3a4_2
  let cyp2c19_as := calculate_activity_score scores "CYP2C19" cyp2c19_genotype
  let cyp3a4_as := calculate_activity_score scores "CYP3A4" cyp3a4_genotype
  let combined_as := O.sqrtQ (cyp2c19_as * cyp3a4_as)
  let metabolizer_status := classify_metabolizer combined_as
  let phys_params := generate_physiological_params O cfg weight age combined_as d.eta
  { subject_id := i + 1
    age := age
    gender := gender
    ethnicity := ethnicity
    weight := weight
    height := height
    bmi := bmi
    cyp2c19_genotype := cyp2c19_genotype
    cyp3a4_genotype := cyp3a4_genotype
    cyp2c19_activity_score := cyp2c19_as
    cyp3a4_activity_score := cyp3a4_as
    combined_activity_score := combined_as
    metabolizer_status := metabolizer_status
    phys_params := phys_params }

/-- Embeds engine.PopulationGenerator.generate: the `n_subjects` loop, with one
draw bundle per iteration. -/
def generate (O : NumericOracle) (data : AlleleData) (scores : ActivityData)
    (cfg : GeneratorConfig) (draws : ℕ → IndividualDraws) :
    List IndividualCharacteristics :=
  (List.range cfg.n_subjects).map fun i => generateIndividual O data scores cfg i (draws i)

/-- Embeds pbpk_model.DrugParameters. -/
structure DrugParameters where
  name : String := "Generic Drug"
  log_p : ℚ := 2.0
  f_u : ℚ := 0.1
  v_d : ℚ := 1.0
  k_a : ℚ := 1.0
  f : ℚ := 0.8
  mw : ℚ := 300.0

/-- Embeds pbpk_model.SimulationConfig. -/
structure SimulationConfig where
  dose : ℚ := 100.0
  route : String := "oral"
  t_max : ℚ := 24.0
  n_points : ℕ := 241

/-- Embeds np.linspace(0, t_max, n_points): `n` evenly spaced samples from `0`
to `t_max` inclusive (`[0]` when `n = 1`, `[]` when `n = 0`; in `ℚ` the
`n = 1` case falls out of the formula since division by zero is zero). -/
def linspace (t_max : ℚ) (n : ℕ) : List ℚ :=
  (List.range n).map fun i : ℕ => t_max * (i : ℚ) / ((n : ℚ) - 1)

/-- Embeds pbpk_model.PBPKModel._estimate_kp_liver: simplified Poulin–Theil
partition coefficient, clamped to [1, 50]; `O.powQ 10 _` models `10 ** _`. -/
def estimate_kp_liver (O : NumericOracle) (drug : DrugParameters) : ℚ :=
  let kp := 0.5 + 0.5 * O.powQ 10 (0.7 * drug.log_p - 0.3) * drug.f_u
  max 1.0 (min kp 50.0)

/-- The parameter dictionary assembled in `PBPKModel.solve` and read by
`_ode_system`. -/
structure ODEParams where
  k_a : ℚ
  F : ℚ
  V_c : ℚ
  V_liver : ℚ
  Q_liver : ℚ
  CL_int : ℚ
  CL_renal : ℚ
  f_u : ℚ
  K_p : ℚ

/-- Embeds pbpk_model.PBPKModel._ode_system: right-hand side of the
3-compartment ODE, state `(A_gut, C_plasma, C_liver)`. -/
def ode_system (params : ODEParams) (y : ℚ × ℚ × ℚ) (_t : ℚ) : ℚ × ℚ × ℚ :=
  let A_gut := y.1
  let C_plasma := y.2.1
  let C_liver := y.2.2
  let dA_gut := -params.k_a * A_gut
  let absorption := params.k_a * A_gut * params.F / params.V_c
  let liver_uptake := (params.Q_liver / params.V_c) * C_plasma
  let liver_return := (params.Q_liver / params.V_c) * (C_liver / params.K_p)
  let renal_clearance := (params.CL_renal / params.V_c) * C_plasma
  let dC_plasma := absorption - liver_uptake + liver_return - renal_clearance
  let hepatic_uptake := (params.Q_liver / params.V_liver) * C_plasma
  let hepatic_return := (params.Q_liver / params.V_liver) * (C_liver / params.K_p)
  let metabolism := params.CL_int * params.f_u / params.V_liver * C_liver
  let dC_liver := hepatic_uptake - hepatic_return - metabolism
  (dA_gut, dC_plasma, dC_liver)

/-- Abstraction of scipy.integrate.odeint: given a right-hand side, an initial
state and a time grid, produce one state per grid point. -/
abbrev Integrator :=
  ((ℚ × ℚ × ℚ) → ℚ → (ℚ × ℚ × ℚ)) → (ℚ × ℚ × ℚ) → List ℚ → List (ℚ × ℚ × ℚ)

/-- An integrator is shape-correct when it returns exactly one state per
requested time point (as `odeint` does). -/
def Integrator.ShapeCorrect (I : Integrator) : Prop :=
  ∀ f y0 ts, (I f y0 ts).length = ts.length

/-- The route dispatch for initial conditions in `PBPKModel.solve`
(lines 186–192): `"oral"` puts the dose in the gut, every other route string
takes the intravenous branch `C_plasma = dose / Vc`. -/
def initial_conditions (route : String) (dose v_central : ℚ) : ℚ × ℚ × ℚ :=
  if route = "oral" then (dose, 0, 0) else (0, dose / v_central, 0)

/-- The parameter assembly in `PBPKModel.solve` (lines 167–184): the
effective intrinsic clearance is `phys.cl_int · phys.activity_score`, the
central volume is `drug.v_d · phys.body_weight`. -/
def solve_params (O : NumericOracle) (drug : DrugParameters)
    (phys : PhysiologicalParameters) : ODEParams :=
  let effective_cl_int := phys.cl_int * phys.activity_score
  let v_central := drug.v_d * phys.body_weight
  { k_a := drug.k_a
    F := drug.f
    V_c := v_central
    V_liver := phys.v_liver
    Q_liver := phys.q_liver
    CL_int := effective_cl_int
    CL_renal := phys.cl_renal
    f_u := drug.f_u
    K_p := estimate_kp_liver O drug }

/-- Embeds the pbpk_model PK-metric dictionary (cmax, tmax, auc, optional t_half). -/
structure PKMetrics where
  cmax : ℚ
  tmax : ℚ
  auc : ℚ
  t_half : Option ℚ
deriving DecidableEq

/-- Index of the first maximum (`np.argmax`); `best` is the best index so
far, `bv` its value, `i` the index of the head. -/
def idxMaxAux : List ℚ → ℕ → ℕ → ℚ → ℕ
  | [], _, best, _ => best
  | x :: rest, i, best, bv =>
      if bv < x then idxMaxAux rest (i + 1) i x else idxMaxAux rest (i + 1) best bv

/-- Embeds np.argmax (0 on the empty list). -/
def idxMax : List ℚ → ℕ
  | [] => 0
  | x :: rest => idxMaxAux rest 1 0 x

/-- Embeds scipy.integrate.trapezoid(y, x): composite trapezoidal rule. -/
def trapezoid : List ℚ → List ℚ → ℚ
  | y1 :: y2 :: ys, x1 :: x2 :: xs =>
      (x2 - x1) * (y1 + y2) / 2 + trapezoid (y2 :: ys) (x2 :: xs)
  | _, _ => 0

/-- Slope of the degree-1 least-squares fit (`np.polyfit(xs, ys, 1)`):
`(n·Σxy − Σx·Σy) / (n·Σx² − (Σx)²)`. -/
def olsSlope (xs ys : List ℚ) : ℚ :=
  let n : ℚ := xs.length
  let sx := xs.sum
  let sy := ys.sum
  let sxy := ((xs.zip ys).map fun p => p.1 * p.2).sum
  let sxx := (xs.map fun x => x * x).sum
  (n * sxy - sx * sy) / (n * sxx - sx * sx)

/-- Embeds pbpk_model.PBPKModel._calculate_pk_metrics: Cmax/Tmax at the first
plasma maximum, trapezoidal AUC, and terminal half-life from a log-linear
fit over the points with `t > tmax` and `c > 0.1·cmax` (needs more than 2
such points and a negative slope, else `none`). -/
def calculate_pk_metrics (O : NumericOracle) (t c_plasma : List ℚ) : PKMetrics :=
  let cmax_idx := idxMax c_plasma
  let cmax := c_plasma.getD cmax_idx 0
  let tmax := t.getD cmax_idx 0
  let auc := trapezoid c_plasma t
  let terminal := (t.zip c_plasma).filter fun p => tmax < p.1 ∧ 0.1 * cmax < p.2
  let t_half :=
    if 2 < terminal.length then
      let t_terminal := terminal.map Prod.fst
      let log_c := terminal.map fun p => O.ln (p.2 + 1e-10)
      let slope := olsSlope t_terminal log_c
      if slope < 0 then some (-O.ln2 / slope) else none
    else none
  { cmax := cmax, tmax := tmax, auc := auc, t_half := t_half }

/-- The result dictionary of `PBPKModel.solve`. -/
structure SolveResult where
  time : List ℚ
  c_plasma : List ℚ
  c_liver : List ℚ
  pk_metrics : PKMetrics
  parameters : ODEParams

/-- Embeds pbpk_model.PBPKModel.solve: build the uniform time grid, assemble ODE
parameters and route-dependent initial conditions, integrate, convert the
plasma/liver series to ng/mL (×1000) and derive PK metrics. -/
def solve (O : NumericOracle) (I : Integrator) (drug : DrugParameters)
    (phys : PhysiologicalParameters) (config : SimulationConfig) : SolveResult :=
  let t := linspace config.t_max config.n_points
  let params := solve_params O drug phys
  let y0 := initial_conditions config.route config.dose params.V_c
  let solution := I (ode_system params) y0 t
  let c_plasma := solution.map fun y => y.2.1 * 1000
  let c_liver := solution.map fun y => y.2.2 * 1000
  { time := t
    c_plasma := c_plasma
    c_liver := c_liver
    pk_metrics := calculate_pk_metrics O t c_plasma
    parameters := params }

/-- Insert into a list kept in ascending order. -/
def insertAsc (x : ℚ) : List ℚ → List ℚ
  | [] => [x]
  | y :: ys => if x ≤ y then x :: y :: ys else y :: insertAsc x ys

/-- Ascending insertion sort (the sort underlying `np.percentile`). -/
def sortAsc (xs : List ℚ) : List ℚ :=
  xs.foldr insertAsc []

/-- Embeds np.percentile(xs, q) with the default linear interpolation: virtual
index `h = (n−1)·q/100` into the ascending sort, result
`s[⌊h⌋] + (h − ⌊h⌋)·(s[⌊h⌋+1] − s[⌊h⌋])`. -/
def percentile (xs : List ℚ) (q : ℚ) : ℚ :=
  let s := sortAsc xs
  let h := ((s.length : ℚ) - 1) * q / 100
  let lo := (⌊h⌋).toNat
  let a := s.getD lo 0
  let b := s.getD (lo + 1) a
  a + (h - (lo : ℚ)) * (b - a)

/-- Embeds np.mean. -/
def meanQ (xs : List ℚ) : ℚ :=
  xs.sum / xs.length

/-- Population variance (square of `np.std`). -/
def varQ (xs : List ℚ) : ℚ :=
  (xs.map fun x => (x - meanQ xs) ^ 2).sum / xs.length

/-- The result dictionary of `pbpk_model.run_population_simulation`. -/
structure PopulationResult where
  time : Option (List ℚ)
  individual_curves : List (List ℚ)
  mean_concentration : List ℚ
  std_concentration : List ℚ
  ci_lower : List ℚ
  ci_upper : List ℚ
  cmax_distribution : List ℚ
  auc_distribution : List ℚ
  pk_metrics_list : List PKMetrics

/-- Column `j` of the concentration matrix (the `axis=0` view numpy reduces
over). -/
def column (rows : List (List ℚ)) (j : ℕ) : List ℚ :=
  rows.map fun row => row.getD j 0

/-- Embeds pbpk_model.run_population_simulation: one `PBPKModel.solve` per
individual in input order, the stacked concentration matrix, per-timepoint
mean/std and 5th/95th percentile bands, and the Cmax and AUC
distributions. -/
def run_population_simulation (O : NumericOracle) (I : Integrator)
    (drug : DrugParameters) (population_phys_params : List PhysiologicalParameters)
    (sim_config : SimulationConfig) : PopulationResult :=
  let n_points := sim_config.n_points
  let results := population_phys_params.map fun phys => solve O I drug phys sim_config
  let all_c_plasma := results.map (·.c_plasma)
  let all_pk_metrics := results.map (·.pk_metrics)
  let time := results.head?.map (·.time)
  let cols := (List.range n_points).map fun j => column all_c_plasma j
  { time := time
    individual_curves := all_c_plasma
    mean_concentration := cols.map meanQ
    std_concentration := cols.map fun col => O.sqrtQ (varQ col)
    ci_lower := cols.map fun col => percentile col 5
    ci_upper := cols.map fun col => percentile col 95
    cmax_distribution := all_pk_metrics.map (·.cmax)
    auc_distribution := all_pk_metrics.map (·.auc)
    pk_metrics_list := all_pk_metrics }

/-- The result dictionary of `engine.calculate_safety_margin`. -/
structure SafetyMargin where
  toxic_threshold : ℚ
  n_total : ℕ
  n_exceeding_threshold : ℕ
  percentage_exceeding : ℚ
  percentage_safe : ℚ
  cmax_max : ℚ
  cmax_95th_percentile : ℚ
  safety_ratio : ℚ
deriving DecidableEq

/-- Embeds np.max (0 on the empty list, where numpy would raise). -/
def maxQ : List ℚ → ℚ
  | [] => 0
  | x :: xs => xs.foldl max x

/-- Embeds engine.calculate_safety_margin: exceedance counts/percentages against
the toxic threshold, the 95th-percentile Cmax and the safety ratio. -/
def calculate_safety_margin (cmax_distribution : List ℚ)
    (toxic_threshold : ℚ) : SafetyMargin :=
  let n_total := cmax_distribution.length
  let n_exceeding := cmax_distribution.countP fun x => toxic_threshold < x
  { toxic_threshold := toxic_threshold
    n_total := n_total
    n_exceeding_threshold := n_exceeding
    percentage_exceeding := ((n_exceeding : ℚ) / n_total) * 100
    percentage_safe := (((n_total : ℚ) - n_exceeding) / n_total) * 100
    cmax_max := maxQ cmax_distribution
    cmax_95th_percentile := percentile cmax_distribution 95
    safety_ratio := toxic_threshold / percentile cmax_distribution 95 }

/-- The ethnicity-percentage normalization at the top of
`app.generate_population` (app.py lines 555–564): replace a zero total by
100, then divide each entry by the total. -/
def normalize_ethnicity (eth_asian eth_european eth_african : ℚ) :
    List (Ethnicity × ℚ) :=
  let total_eth := eth_asian + eth_european + eth_african
  let total_eth := if total_eth = 0 then 100 else total_eth
  [(Ethnicity.EAST_ASIAN, eth_asian / total_eth),
   (Ethnicity.EUROPEAN, eth_european / total_eth),
   (Ethnicity.AFRICAN, eth_african / total_eth)]

/-- The terminal-phase sample selection of `_calculate_pk_metrics`: grid
points with time strictly after Tmax and concentration strictly above 10%
of Cmax. -/
def terminalPoints (t c : List ℚ) : List (ℚ × ℚ) :=
  (t.zip c).filter fun p =>
    t.getD (idxMax c) 0 < p.1 ∧ 0.1 * c.getD (idxMax c) 0 < p.2

/-- The fitted log-linear slope of `_calculate_pk_metrics`: least-squares
slope of (time, ln(concentration + 1e-10)) over the terminal points. -/
def terminalSlope (O : NumericOracle) (t c : List ℚ) : ℚ :=
  olsSlope ((terminalPoints t c).map Prod.fst)
    ((terminalPoints t c).map fun p => O.ln (p.2 + 1e-10))

/-! ## Helper lemmas -/

theorem pickD_mem_or_eq {α : Type} (l : List (α × ℚ)) :
    ∀ (d : α) (u : ℚ), pickD d l u ∈ l.map Prod.fst ∨ pickD d l u = d := by
  induction l with
  | nil => intro d u; right; rfl
  | cons hd rest ih =>
      intro d u
      rw [pickD]
      by_cases h : u < hd.2
      · left; simp [h]
      · rcases ih hd.1 (u - hd.2) with hm | he
        · left; simp only [if_neg h, List.map_cons]
          exact List.mem_cons_of_mem _ hm
        · left; simp only [if_neg h, he, List.map_cons]
          exact List.mem_cons_self _ _

theorem pickD_mem {α : Type} {l : List (α × ℚ)} (hl : l ≠ []) (d : α) (u : ℚ) :
    pickD d l u ∈ l.map Prod.fst := by
  cases l with
  | nil => exact absurd rfl hl
  | cons hd rest =>
      rw [pickD]
      by_cases h : u < hd.2
      · simp [h]
      · rcases pickD_mem_or_eq rest hd.1 (u - hd.2) with hm | he
        · simp only [if_neg h, List.map_cons]
          exact List.mem_cons_of_mem _ hm
        · simp only [if_neg h, he, List.map_cons]
          exact List.mem_cons_self _ _

theorem sortPair_fst_le_snd (a b : String) : (sortPair a b).1 ≤ (sortPair a b).2 := by
  rw [sortPair]
  by_cases h : a ≤ b
  · simp only [if_pos h]
    exact h
  · simp only [if_neg h]
    exact le_of_lt (lt_of_not_le h)

theorem sortPair_fst_eq_or (a b : String) :
    (sortPair a b).1 = a ∨ (sortPair a b).1 = b := by
  rw [sortPair]; by_cases h : a ≤ b <;> simp [h]

theorem sortPair_snd_eq_or (a b : String) :
    (sortPair a b).2 = a ∨ (sortPair a b).2 = b := by
  rw [sortPair]; by_cases h : a ≤ b <;> simp [h]

theorem sortPair_comm (a b : String) : sortPair a b = sortPair b a := by
  rw [sortPair, sortPair]
  rcases le_total a b with h | h
  · by_cases h2 : b ≤ a
    · simp [h, h2, le_antisymm h h2]
    · simp [h, h2]
  · by_cases h2 : a ≤ b
    · simp [h, h2, le_antisymm h2 h]
    · simp [h, h2]

theorem linspace_length (t_max : ℚ) (n : ℕ) : (linspace t_max n).length = n := by
  rw [linspace, List.length_map, List.length_range]

theorem linspace_getD (t_max : ℚ) {n i : ℕ} (h : i < n) :
    (linspace t_max n).getD i 0 = t_max * i / ((n : ℚ) - 1) := by
  rw [linspace, List.getD_eq_getElem?_getD, List.getElem?_map, List.getElem?_range h]
  rfl

theorem map_getD_of_lt {α β : Type} (f : α → β) (l : List α) (i : ℕ)
    (h : i < l.length) (d : β) :
    (l.map f).getD i d = f (l.get ⟨i, h⟩) := by
  simp [List.getD_eq_getElem?_getD, List.getElem?_map, List.getElem?_eq_getElem h]

theorem sample_anthropometrics_weight_bounds (cfg : GeneratorConfig)
    (gender : Gender) (age : ℕ) (z_weight z_height : ℚ) :
    40 ≤ (sample_anthropometrics cfg gender age z_weight z_height).1 ∧
      (sample_anthropometrics cfg gender age z_weight z_height).1 ≤ 150 :=
  ⟨le_max_left _ _, max_le (by norm_num) (min_le_right _ _)⟩

theorem sample_anthropometrics_height_bounds (cfg : GeneratorConfig)
    (gender : Gender) (age : ℕ) (z_weight z_height : ℚ) :
    140 ≤ (sample_anthropometrics cfg gender age z_weight z_height).2.1 ∧
      (sample_anthropometrics cfg gender age z_weight z_height).2.1 ≤ 200 :=
  ⟨le_max_left _ _, max_le (by norm_num) (min_le_right _ _)⟩

/-! ## Claims -/

/-- C1 (counterexample): a missing backing data file is NOT fatal at process
start.  The loaders do raise, but the module-level `try/except` swallows the
error, prints a warning, installs empty tables, and the per-call lookups
then silently serve defaults. -/
theorem claim_C1_counterexample :
    load_allele_frequencies none =
      .error "FileNotFoundError: Allele frequency data file not found" ∧
    load_activity_scores none =
      .error "FileNotFoundError: Activity score data file not found" ∧
    moduleInit none none = ⟨[], [], true⟩ ∧
    get_allele_frequencies (moduleInit none none).alleleData
      Ethnicity.EAST_ASIAN "CYP2C19" = [("*1", 1)] ∧
    get_activity_score (moduleInit none none).activityData "CYP2C19" "*2" = 1 :=
  ⟨rfl, rfl, rfl, rfl, rfl⟩

/-- C1 (amended): when either backing file is missing the corresponding
loader raises `FileNotFoundError` once, but the module-level initializer
catches it, warns, and falls back to empty tables for both datasets, after
which per-call lookups serve defaults — process start does not fail. -/
theorem claim_C1_load_failure_masked (af : Option AlleleFile)
    (sf : Option ScoreFile) (h : af = none ∨ sf = none) :
    (af = none → load_allele_frequencies af =
        .error "FileNotFoundError: Allele frequency data file not found") ∧
    (sf = none → load_activity_scores sf =
        .error "FileNotFoundError: Activity score data file not found") ∧
    moduleInit af sf = ⟨[], [], true⟩ ∧
    get_allele_frequencies (moduleInit af sf).alleleData
      Ethnicity.EAST_ASIAN "CYP2C19" = [("*1", 1)] := by
  have hmi : moduleInit af sf = ⟨[], [], true⟩ := by
    rcases h with h | h
    · subst h
      cases hs : load_activity_scores sf <;>
        simp [moduleInit, load_allele_frequencies, hs]
    · subst h
      cases ha : load_allele_frequencies af <;>
        simp [moduleInit, load_activity_scores, ha]
  refine ⟨fun ha => ?_, fun hs => ?_, hmi, ?_⟩
  · subst ha; rfl
  · subst hs; rfl
  · rw [hmi]
    rfl

/-- C1 witness: both files missing at a concrete input. -/
theorem claim_C1_witness :
    moduleInit none none = ⟨[], [], true⟩ :=
  (claim_C1_load_failure_masked none none (Or.inl rfl)).2.2.1

/-- C2: the stored intrinsic clearance is
`base_cl_int · activity_score · lognormal-draw`, and the effective CLint
assembled in `solve` (and passed to the ODE) multiplies by the activity
score again, so the genotype effect enters quadratically. -/
theorem claim_C2_activity_score_compounds (O : NumericOracle) (I : Integrator)
    (cfg : GeneratorConfig) (drug : DrugParameters) (config : SimulationConfig)
    (weight : ℚ) (age : ℕ) (activity_score eta : ℚ) :
    (generate_physiological_params O cfg weight age activity_score eta).cl_int
        = cfg.base_cl_int * activity_score * eta ∧
    (solve_params O drug
        (generate_physiological_params O cfg weight age activity_score eta)).CL_int
        = (generate_physiological_params O cfg weight age activity_score eta).cl_int
          * activity_score ∧
    (solve O I drug (generate_physiological_params O cfg weight age activity_score eta)
        config).parameters.CL_int
        = cfg.base_cl_int * (activity_score * activity_score) * eta := by
  refine ⟨rfl, rfl, ?_⟩
  show (solve_params O drug _).CL_int = _
  simp only [solve_params, generate_physiological_params]
  ring

/-- C3 (counterexample): zero-sum ethnicity proportions are NOT normalized
to an even split: all-zero input yields the all-zero mapping, whose
proportions sum to 0, not a valid probability distribution. -/
theorem claim_C3_counterexample :
    normalize_ethnicity 0 0 0 =
      [(Ethnicity.EAST_ASIAN, 0), (Ethnicity.EUROPEAN, 0), (Ethnicity.AFRICAN, 0)] ∧
    ((normalize_ethnicity 0 0 0).map Prod.snd).sum ≠ 1 ∧
    normalize_ethnicity 0 0 0 ≠
      [(Ethnicity.EAST_ASIAN, 1/3), (Ethnicity.EUROPEAN, 1/3),
       (Ethnicity.AFRICAN, 1/3)] := by
  refine ⟨?_, ?_, ?_⟩ <;> norm_num [normalize_ethnicity]

/-- C3 (amended): when the proportions sum to zero the divisor is replaced
by 100 (avoiding division by zero), so each proportion becomes its raw
value over 100 — for the all-zero input that is the all-zero mapping, not
an even split. -/
theorem claim_C3_zero_sum_divisor (a b c : ℚ) (h : a + b + c = 0) :
    normalize_ethnicity a b c =
      [(Ethnicity.EAST_ASIAN, a / 100), (Ethnicity.EUROPEAN, b / 100),
       (Ethnicity.AFRICAN, c / 100)] := by
  simp [normalize_ethnicity, h]

/-- C3 witness: the all-zero input. -/
theorem claim_C3_witness :
    normalize_ethnicity 0 0 0 =
      [(Ethnicity.EAST_ASIAN, 0), (Ethnicity.EUROPEAN, 0), (Ethnicity.AFRICAN, 0)] := by
  have h := claim_C3_zero_sum_divisor 0 0 0 (by norm_num)
  rw [h]
  norm_num

/-- C4: metabolizer classification is a pure function of the combined
activity score with inclusive-on-the-lower-class boundaries at 0.25, 1.0
and 2.0; in particular a score of exactly 1.0 is Intermediate. -/
theorem claim_C4_metabolizer_boundaries (s : ℚ) :
    (s ≤ 0.25 → classify_metabolizer s = .POOR) ∧
    (0.25 < s → s ≤ 1.0 → classify_metabolizer s = .INTERMEDIATE) ∧
    (1.0 < s → s ≤ 2.0 → classify_metabolizer s = .NORMAL) ∧
    (2.0 < s → classify_metabolizer s = .ULTRA_RAPID) ∧
    classify_metabolizer 1.0 = .INTERMEDIATE := by
  refine ⟨fun h => ?_, fun h1 h2 => ?_, fun h1 h2 => ?_, fun h => ?_, ?_⟩
  · rw [classify_metabolizer, if_pos h]
  · rw [classify_metabolizer, if_neg (not_le.mpr h1), if_pos h2]
  · rw [classify_metabolizer, if_neg (by linarith), if_neg (not_le.mpr h1), if_pos h2]
  · rw [classify_metabolizer, if_neg (by linarith), if_neg (by linarith),
      if_neg (not_le.mpr h)]
  · norm_num [classify_metabolizer]

/-- C4 witness: the three boundary scores and one value beyond 2.0. -/
theorem claim_C4_witness :
    classify_metabolizer 0.25 = .POOR ∧
    classify_metabolizer 1.0 = .INTERMEDIATE ∧
    classify_metabolizer 2.0 = .NORMAL ∧
    classify_metabolizer 2.5 = .ULTRA_RAPID :=
  ⟨(claim_C4_metabolizer_boundaries 0.25).1 le_rfl,
   (claim_C4_metabolizer_boundaries 1.0).2.1 (by norm_num) le_rfl,
   (claim_C4_metabolizer_boundaries 2.0).2.2.1 (by norm_num) le_rfl,
   (claim_C4_metabolizer_boundaries 2.5).2.2.2.1 (by norm_num)⟩

/-- C7: the safety-margin analysis reports the total count, the count and
percentage strictly exceeding the toxic threshold, the empirical 95th
percentile of the Cmax distribution, and the ratio threshold / 95th
percentile. -/
theorem claim_C7_safety_margin (xs : List ℚ) (threshold : ℚ) :
    (calculate_safety_margin xs threshold).toxic_threshold = threshold ∧
    (calculate_safety_margin xs threshold).n_total = xs.length ∧
    (calculate_safety_margin xs threshold).n_exceeding_threshold
        = (xs.filter fun x => threshold < x).length ∧
    (calculate_safety_margin xs threshold).percentage_exceeding
        = 100 * ((xs.filter fun x => threshold < x).length : ℚ) / xs.length ∧
    (calculate_safety_margin xs threshold).cmax_95th_percentile
        = percentile xs 95 ∧
    (calculate_safety_margin xs threshold).safety_ratio
        = threshold / (calculate_safety_margin xs threshold).cmax_95th_percentile ∧
    (calculate_safety_margin xs threshold).n_exceeding_threshold ≤ xs.length := by
  refine ⟨rfl, rfl, ?_, ?_, rfl, rfl, ?_⟩
  · simp [calculate_safety_margin, List.countP_eq_length_filter]
  · show ((xs.countP fun x => decide (threshold < x) : ℕ) : ℚ) / xs.length * 100 = _
    rw [List.countP_eq_length_filter]
    ring
  · exact List.countP_le_length _

/-- C10: the route dispatch in `solve` treats exactly the string "oral" as
oral dosing; every other route string (iv, intravenous, or any typo)
falls through to the intravenous initial conditions, and no route value
raises. -/
theorem claim_C10_route_dispatch (route : String) (dose v_central : ℚ)
    (h : route ≠ "oral") :
    initial_conditions route dose v_central = (0, dose / v_central, 0) ∧
    initial_conditions "oral" dose v_central = (dose, 0, 0) ∧
    initial_conditions "iv" dose v_central = (0, dose / v_central, 0) ∧
    initial_conditions "intravenous" dose v_central = (0, dose / v_central, 0) := by
  refine ⟨?_, rfl, ?_, ?_⟩
  · rw [initial_conditions, if_neg h]
  · rw [initial_conditions, if_neg (by decide)]
  · rw [initial_conditions, if_neg (by decide)]

/-- C10 witness: the route string "iv". -/
theorem claim_C10_witness :
    initial_conditions "iv" 100 50 = (0, 100 / 50, 0) :=
  (claim_C10_route_dispatch "iv" 100 50 (by decide)).1

/-- C5: half-life extraction restricts to grid samples strictly after Tmax
with concentration strictly above 10% of Cmax; fewer than 3 such points, or
a non-negative fitted log-linear slope, yields the explicit absence `none`
(never an error), and a negative slope yields `-ln 2 / slope`. -/
theorem claim_C5_half_life (O : NumericOracle) (t c : List ℚ) :
    ((terminalPoints t c).length < 3 →
        (calculate_pk_metrics O t c).t_half = none) ∧
    (2 < (terminalPoints t c).length → terminalSlope O t c < 0 →
        (calculate_pk_metrics O t c).t_half = some (-O.ln2 / terminalSlope O t c)) ∧
    (2 < (terminalPoints t c).length → 0 ≤ terminalSlope O t c →
        (calculate_pk_metrics O t c).t_half = none) := by
  simp only [calculate_pk_metrics, terminalSlope, terminalPoints]
  refine ⟨fun h => ?_, fun h1 h2 => ?_, fun h1 h2 => ?_⟩
  · rw [if_neg (by omega)]
  · rw [if_pos h1, if_pos h2]
  · rw [if_pos h1, if_neg (not_lt.mpr h2)]

/-- C5 witness: a strictly decaying five-point series (at least 3 terminal
points, negative slope) and a one-point series (too few terminal points). -/
theorem claim_C5_witness :
    (calculate_pk_metrics ⟨fun _ => 0, fun _ _ => 0, fun x => x, 1⟩
        [0, 1, 2, 3, 4] [10, 8, 6, 5, 4]).t_half
      = some (-(1 : ℚ) / terminalSlope ⟨fun _ => 0, fun _ _ => 0, fun x => x, 1⟩
          [0, 1, 2, 3, 4] [10, 8, 6, 5, 4]) ∧
    (calculate_pk_metrics ⟨fun _ => 0, fun _ _ => 0, fun x => x, 1⟩
        [0] [5]).t_half = none := by
  constructor
  · exact (claim_C5_half_life ⟨fun _ => 0, fun _ _ => 0, fun x => x, 1⟩
      [0, 1, 2, 3, 4] [10, 8, 6, 5, 4]).2.1
      (by norm_num [terminalPoints, idxMax, idxMaxAux, List.getD])
      (by norm_num [terminalSlope, terminalPoints, olsSlope, idxMax, idxMaxAux,
        List.getD])
  · exact (claim_C5_half_life ⟨fun _ => 0, fun _ _ => 0, fun x => x, 1⟩
      [0] [5]).1 (by norm_num [terminalPoints, idxMax, idxMaxAux, List.getD])

/-- C8: each per-gene activity score is the sum of the two alleles'
looked-up scores (with default 1.0 for an allele or gene absent from the
table), and the combined score is the square root of the product of the two
gene scores (the geometric mean). -/
theorem claim_C8_activity_scores (O : NumericOracle) (data : AlleleData)
    (scores : ActivityData) (cfg : GeneratorConfig) (i : ℕ) (d : IndividualDraws) :
    (generateIndividual O data scores cfg i d).cyp2c19_activity_score
        = get_activity_score scores "CYP2C19"
            (generateIndividual O data scores cfg i d).cyp2c19_genotype.1
          + get_activity_score scores "CYP2C19"
            (generateIndividual O data scores cfg i d).cyp2c19_genotype.2 ∧
    (generateIndividual O data scores cfg i d).cyp3a4_activity_score
        = get_activity_score scores "CYP3A4"
            (generateIndividual O data scores cfg i d).cyp3a4_genotype.1
          + get_activity_score scores "CYP3A4"
            (generateIndividual O data scores cfg i d).cyp3a4_genotype.2 ∧
    (generateIndividual O data scores cfg i d).combined_activity_score
        = O.sqrtQ ((generateIndividual O data scores cfg i d).cyp2c19_activity_score
            * (generateIndividual O data scores cfg i d).cyp3a4_activity_score) ∧
    (∀ gene allele, scores.lookup gene = none →
        get_activity_score scores gene allele = 1) ∧
    (∀ gene allele tbl, scores.lookup gene = some tbl → tbl.lookup allele = none →
        get_activity_score scores gene allele = 1) ∧
    (O.sqrtQ ((generateIndividual O data scores cfg i d).cyp2c19_activity_score
          * (generateIndividual O data scores cfg i d).cyp3a4_activity_score)
        * O.sqrtQ ((generateIndividual O data scores cfg i d).cyp2c19_activity_score
          * (generateIndividual O data scores cfg i d).cyp3a4_activity_score)
        = (generateIndividual O data scores cfg i d).cyp2c19_activity_score
          * (generateIndividual O data scores cfg i d).cyp3a4_activity_score →
      (generateIndividual O data scores cfg i d).combined_activity_score
          * (generateIndividual O data scores cfg i d).combined_activity_score
        = (generateIndividual O data scores cfg i d).cyp2c19_activity_score
          * (generateIndividual O data scores cfg i d).cyp3a4_activity_score) := by
  refine ⟨rfl, rfl, rfl, fun gene allele hg => ?_, fun gene allele tbl hg ha => ?_,
    fun hsq => hsq⟩
  · rw [get_activity_score, hg]
  · rw [get_activity_score, hg]
    show (tbl.lookup allele).getD 1 = 1
    rw [ha]
    rfl

/-- C8 witness: a two-gene score table where both genotypes are *1/*1, the
gene scores are 2 and 2, and the square root of their product is 2. -/
theorem claim_C8_witness :
    (generateIndividual ⟨fun x => if x = 4 then 2 else 0, fun _ _ => 0, fun _ => 0, 0⟩
        [] [("CYP2C19", [("*1", 1)]), ("CYP3A4", [("*1", 1)])]
        ⟨1, [], (18, 65), 1/2, 70, 15, 10⟩ 0
        ⟨0, 0, 30, 0, 0, 0, 0, 0, 0, 0⟩).combined_activity_score
      * (generateIndividual ⟨fun x => if x = 4 then 2 else 0, fun _ _ => 0, fun _ => 0, 0⟩
        [] [("CYP2C19", [("*1", 1)]), ("CYP3A4", [("*1", 1)])]
        ⟨1, [], (18, 65), 1/2, 70, 15, 10⟩ 0
        ⟨0, 0, 30, 0, 0, 0, 0, 0, 0, 0⟩).combined_activity_score
    = (generateIndividual ⟨fun x => if x = 4 then 2 else 0, fun _ _ => 0, fun _ => 0, 0⟩
        [] [("CYP2C19", [("*1", 1)]), ("CYP3A4", [("*1", 1)])]
        ⟨1, [], (18, 65), 1/2, 70, 15, 10⟩ 0
        ⟨0, 0, 30, 0, 0, 0, 0, 0, 0, 0⟩).cyp2c19_activity_score
      * (generateIndividual ⟨fun x => if x = 4 then 2 else 0, fun _ _ => 0, fun _ => 0, 0⟩
        [] [("CYP2C19", [("*1", 1)]), ("CYP3A4", [("*1", 1)])]
        ⟨1, [], (18, 65), 1/2, 70, 15, 10⟩ 0
        ⟨0, 0, 30, 0, 0, 0, 0, 0, 0, 0⟩).cyp3a4_activity_score :=
  (claim_C8_activity_scores ⟨fun x => if x = 4 then 2 else 0, fun _ _ => 0, fun _ => 0, 0⟩
    [] [("CYP2C19", [("*1", 1)]), ("CYP3A4", [("*1", 1)])]
    ⟨1, [], (18, 65), 1/2, 70, 15, 10⟩ 0
    ⟨0, 0, 30, 0, 0, 0, 0, 0, 0, 0⟩).2.2.2.2.2 (by
    have h19 : (generateIndividual ⟨fun x => if x = 4 then 2 else 0, fun _ _ => 0, fun _ => 0, 0⟩
        [] [("CYP2C19", [("*1", 1)]), ("CYP3A4", [("*1", 1)])]
        ⟨1, [], (18, 65), 1/2, 70, 15, 10⟩ 0
        ⟨0, 0, 30, 0, 0, 0, 0, 0, 0, 0⟩).cyp2c19_activity_score = 2 := by
      norm_num [generateIndividual, sample_genotype, get_allele_frequencies,
        calculate_activity_score, get_activity_score, pickD, sortPair, List.lookup]
    have h3a4 : (generateIndividual ⟨fun x => if x = 4 then 2 else 0, fun _ _ => 0, fun _ => 0, 0⟩
        [] [("CYP2C19", [("*1", 1)]), ("CYP3A4", [("*1", 1)])]
        ⟨1, [], (18, 65), 1/2, 70, 15, 10⟩ 0
        ⟨0, 0, 30, 0, 0, 0, 0, 0, 0, 0⟩).cyp3a4_activity_score = 2 := by
      norm_num [generateIndividual, sample_genotype, get_allele_frequencies,
        calculate_activity_score, get_activity_score, pickD, sortPair, List.lookup,
        show (("CYP3A4" == "CYP2C19") : Bool) = false from rfl]
    rw [h19, h3a4]
    norm_num)

theorem sample_genotype_mem (data : AlleleData) (gene : String)
    (ethnicity : Ethnicity) (u1 u2 : ℚ)
    (h : get_allele_frequencies data ethnicity gene ≠ []) :
    (sample_genotype data gene ethnicity u1 u2).1
        ∈ (get_allele_frequencies data ethnicity gene).map Prod.fst ∧
    (sample_genotype data gene ethnicity u1 u2).2
        ∈ (get_allele_frequencies data ethnicity gene).map Prod.fst := by
  constructor
  · show (sortPair (pickD "" (get_allele_frequencies data ethnicity gene) u1)
      (pickD "" (get_allele_frequencies data ethnicity gene) u2)).1 ∈ _
    rcases sortPair_fst_eq_or (pickD "" (get_allele_frequencies data ethnicity gene) u1)
        (pickD "" (get_allele_frequencies data ethnicity gene) u2) with h1 | h1 <;>
      rw [h1] <;> exact pickD_mem h _ _
  · show (sortPair (pickD "" (get_allele_frequencies data ethnicity gene) u1)
      (pickD "" (get_allele_frequencies data ethnicity gene) u2)).2 ∈ _
    rcases sortPair_snd_eq_or (pickD "" (get_allele_frequencies data ethnicity gene) u1)
        (pickD "" (get_allele_frequencies data ethnicity gene) u2) with h1 | h1 <;>
      rw [h1] <;> exact pickD_mem h _ _

/-- C9: every generated individual has weight in [40, 150] and height in
[140, 200], and each genotype is a canonically sorted pair (sorting makes
(A,B) and (B,A) the same value) of allele labels taken from the frequency
table used for that individual's ethnicity and gene. -/
theorem claim_C9_generated_invariants (O : NumericOracle) (data : AlleleData)
    (scores : ActivityData) (cfg : GeneratorConfig) (draws : ℕ → IndividualDraws)
    (hne : ∀ eth gene, get_allele_frequencies data eth gene ≠ []) :
    (∀ a b : String, sortPair a b = sortPair b a) ∧
    ∀ ind ∈ generate O data scores cfg draws,
      (40 ≤ ind.weight ∧ ind.weight ≤ 150) ∧
      (140 ≤ ind.height ∧ ind.height ≤ 200) ∧
      ind.cyp2c19_genotype.1 ≤ ind.cyp2c19_genotype.2 ∧
      ind.cyp3a4_genotype.1 ≤ ind.cyp3a4_genotype.2 ∧
      ind.cyp2c19_genotype.1
        ∈ (get_allele_frequencies data ind.ethnicity "CYP2C19").map Prod.fst ∧
      ind.cyp2c19_genotype.2
        ∈ (get_allele_frequencies data ind.ethnicity "CYP2C19").map Prod.fst ∧
      ind.cyp3a4_genotype.1
        ∈ (get_allele_frequencies data ind.ethnicity "CYP3A4").map Prod.fst ∧
      ind.cyp3a4_genotype.2
        ∈ (get_allele_frequencies data ind.ethnicity "CYP3A4").map Prod.fst := by
  refine ⟨sortPair_comm, ?_⟩
  intro ind hmem
  rw [generate] at hmem
  obtain ⟨i, hi, rfl⟩ := List.mem_map.mp hmem
  have hw : (generateIndividual O data scores cfg i (draws i)).weight
      = (sample_anthropometrics cfg
          (if (draws i).u_gender < cfg.gender_ratio then Gender.M else Gender.F)
          (draws i).age (draws i).z_weight (draws i).z_height).1 := rfl
  have hh : (generateIndividual O data scores cfg i (draws i)).height
      = (sample_anthropometrics cfg
          (if (draws i).u_gender < cfg.gender_ratio then Gender.M else Gender.F)
          (draws i).age (draws i).z_weight (draws i).z_height).2.1 := rfl
  have heth : (generateIndividual O data scores cfg i (draws i)).ethnicity
      = pickD Ethnicity.EAST_ASIAN cfg.ethnicity_distribution (draws i).u_ethnicity := rfl
  have h19 : (generateIndividual O data scores cfg i (draws i)).cyp2c19_genotype
      = sample_genotype data "CYP2C19"
          (pickD Ethnicity.EAST_ASIAN cfg.ethnicity_distribution (draws i).u_ethnicity)
          (draws i).u_cyp2c19_1 (draws i).u_cyp2c19_2 := rfl
  have h34 : (generateIndividual O data scores cfg i (draws i)).cyp3a4_genotype
      = sample_genotype data "CYP3A4"
          (pickD Ethnicity.EAST_ASIAN cfg.ethnicity_distribution (draws i).u_ethnicity)
          (draws i).u_cyp3a4_1 (draws i).u_cyp3a4_2 := rfl
  rw [hw, hh, heth, h19, h34]
  exact ⟨sample_anthropometrics_weight_bounds cfg _ _ _ _,
    sample_anthropometrics_height_bounds cfg _ _ _ _,
    sortPair_fst_le_snd _ _,
    sortPair_fst_le_snd _ _,
    (sample_genotype_mem data "CYP2C19" _ _ _ (hne _ _)).1,
    (sample_genotype_mem data "CYP2C19" _ _ _ (hne _ _)).2,
    (sample_genotype_mem data "CYP3A4" _ _ _ (hne _ _)).1,
    (sample_genotype_mem data "CYP3A4" _ _ _ (hne _ _)).2⟩

/-- C9 witness: the single individual of a singleton cohort over empty data
tables (every lookup falls back to the monomorphic *1 table, nonempty). -/
theorem claim_C9_witness :
    (40 ≤ (generateIndividual ⟨fun _ => 0, fun _ _ => 0, fun _ => 0, 0⟩ [] []
        ⟨1, [], (18, 65), 1/2, 70, 15, 10⟩ 0 ⟨0, 0, 30, 0, 0, 0, 0, 0, 0, 0⟩).weight ∧
      (generateIndividual ⟨fun _ => 0, fun _ _ => 0, fun _ => 0, 0⟩ [] []
        ⟨1, [], (18, 65), 1/2, 70, 15, 10⟩ 0 ⟨0, 0, 30, 0, 0, 0, 0, 0, 0, 0⟩).weight ≤ 150) ∧
    (140 ≤ (generateIndividual ⟨fun _ => 0, fun _ _ => 0, fun _ => 0, 0⟩ [] []
        ⟨1, [], (18, 65), 1/2, 70, 15, 10⟩ 0 ⟨0, 0, 30, 0, 0, 0, 0, 0, 0, 0⟩).height ∧
      (generateIndividual ⟨fun _ => 0, fun _ _ => 0, fun _ => 0, 0⟩ [] []
        ⟨1, [], (18, 65), 1/2, 70, 15, 10⟩ 0 ⟨0, 0, 30, 0, 0, 0, 0, 0, 0, 0⟩).height ≤ 200) ∧
    (generateIndividual ⟨fun _ => 0, fun _ _ => 0, fun _ => 0, 0⟩ [] []
        ⟨1, [], (18, 65), 1/2, 70, 15, 10⟩ 0 ⟨0, 0, 30, 0, 0, 0, 0, 0, 0, 0⟩).cyp2c19_genotype.1
      ≤ (generateIndividual ⟨fun _ => 0, fun _ _ => 0, fun _ => 0, 0⟩ [] []
        ⟨1, [], (18, 65), 1/2, 70, 15, 10⟩ 0 ⟨0, 0, 30, 0, 0, 0, 0, 0, 0, 0⟩).cyp2c19_genotype.2 ∧
    (generateIndividual ⟨fun _ => 0, fun _ _ => 0, fun _ => 0, 0⟩ [] []
        ⟨1, [], (18, 65), 1/2, 70, 15, 10⟩ 0 ⟨0, 0, 30, 0, 0, 0, 0, 0, 0, 0⟩).cyp3a4_genotype.1
      ≤ (generateIndividual ⟨fun _ => 0, fun _ _ => 0, fun _ => 0, 0⟩ [] []
        ⟨1, [], (18, 65), 1/2, 70, 15, 10⟩ 0 ⟨0, 0, 30, 0, 0, 0, 0, 0, 0, 0⟩).cyp3a4_genotype.2 ∧
    (generateIndividual ⟨fun _ => 0, fun _ _ => 0, fun _ => 0, 0⟩ [] []
        ⟨1, [], (18, 65), 1/2, 70, 15, 10⟩ 0 ⟨0, 0, 30, 0, 0, 0, 0, 0, 0, 0⟩).cyp2c19_genotype.1
      ∈ (get_allele_frequencies []
          (generateIndividual ⟨fun _ => 0, fun _ _ => 0, fun _ => 0, 0⟩ [] []
        ⟨1, [], (18, 65), 1/2, 70, 15, 10⟩ 0 ⟨0, 0, 30, 0, 0, 0, 0, 0, 0, 0⟩).ethnicity "CYP2C19").map Prod.fst ∧
    (generateIndividual ⟨fun _ => 0, fun _ _ => 0, fun _ => 0, 0⟩ [] []
        ⟨1, [], (18, 65), 1/2, 70, 15, 10⟩ 0 ⟨0, 0, 30, 0, 0, 0, 0, 0, 0, 0⟩).cyp2c19_genotype.2
      ∈ (get_allele_frequencies []
          (generateIndividual ⟨fun _ => 0, fun _ _ => 0, fun _ => 0, 0⟩ [] []
        ⟨1, [], (18, 65), 1/2, 70, 15, 10⟩ 0 ⟨0, 0, 30, 0, 0, 0, 0, 0, 0, 0⟩).ethnicity "CYP2C19").map Prod.fst ∧
    (generateIndividual ⟨fun _ => 0, fun _ _ => 0, fun _ => 0, 0⟩ [] []
        ⟨1, [], (18, 65), 1/2, 70, 15, 10⟩ 0 ⟨0, 0, 30, 0, 0, 0, 0, 0, 0, 0⟩).cyp3a4_genotype.1
      ∈ (get_allele_frequencies []
          (generateIndividual ⟨fun _ => 0, fun _ _ => 0, fun _ => 0, 0⟩ [] []
        ⟨1, [], (18, 65), 1/2, 70, 15, 10⟩ 0 ⟨0, 0, 30, 0, 0, 0, 0, 0, 0, 0⟩).ethnicity "CYP3A4").map Prod.fst ∧
    (generateIndividual ⟨fun _ => 0, fun _ _ => 0, fun _ => 0, 0⟩ [] []
        ⟨1, [], (18, 65), 1/2, 70, 15, 10⟩ 0 ⟨0, 0, 30, 0, 0, 0, 0, 0, 0, 0⟩).cyp3a4_genotype.2
      ∈ (get_allele_frequencies []
          (generateIndividual ⟨fun _ => 0, fun _ _ => 0, fun _ => 0, 0⟩ [] []
        ⟨1, [], (18, 65), 1/2, 70, 15, 10⟩ 0 ⟨0, 0, 30, 0, 0, 0, 0, 0, 0, 0⟩).ethnicity "CYP3A4").map Prod.fst :=
  (claim_C9_generated_invariants ⟨fun _ => 0, fun _ _ => 0, fun _ => 0, 0⟩ [] []
    ⟨1, [], (18, 65), 1/2, 70, 15, 10⟩ (fun _ => ⟨0, 0, 30, 0, 0, 0, 0, 0, 0, 0⟩)
    (fun eth gene => by simp [get_allele_frequencies])).2
    (generateIndividual ⟨fun _ => 0, fun _ _ => 0, fun _ => 0, 0⟩ [] []
        ⟨1, [], (18, 65), 1/2, 70, 15, 10⟩ 0 ⟨0, 0, 30, 0, 0, 0, 0, 0, 0, 0⟩)
    (by simp [generate, List.range_succ])

/-- C6: the population simulation runs one solve per individual over one
identical uniform time grid of `n_points` samples spanning `[0, t_max]`
(both endpoints included), returns the N × n_points concentration matrix,
per-timepoint mean / standard deviation / 5th / 95th percentile arrays of
length `n_points`, and Cmax and AUC distributions of length N whose `i`-th
entries are derived from the `i`-th individual in input order. -/
theorem claim_C6_population_result_shape (O : NumericOracle) (I : Integrator)
    (drug : DrugParameters) (pop : List PhysiologicalParameters)
    (cfg : SimulationConfig) (hI : I.ShapeCorrect) (hn : 2 ≤ cfg.n_points)
    (hpop : pop ≠ []) :
    (run_population_simulation O I drug pop cfg).time
        = some (linspace cfg.t_max cfg.n_points) ∧
    (∀ phys, (solve O I drug phys cfg).time = linspace cfg.t_max cfg.n_points) ∧
    (linspace cfg.t_max cfg.n_points).length = cfg.n_points ∧
    (linspace cfg.t_max cfg.n_points).getD 0 0 = 0 ∧
    (linspace cfg.t_max cfg.n_points).getD (cfg.n_points - 1) 0 = cfg.t_max ∧
    (∀ i, i + 1 < cfg.n_points →
        (linspace cfg.t_max cfg.n_points).getD (i + 1) 0
          - (linspace cfg.t_max cfg.n_points).getD i 0
          = cfg.t_max / ((cfg.n_points : ℚ) - 1)) ∧
    (run_population_simulation O I drug pop cfg).individual_curves.length
        = pop.length ∧
    (∀ row ∈ (run_population_simulation O I drug pop cfg).individual_curves,
        row.length = cfg.n_points) ∧
    (run_population_simulation O I drug pop cfg).mean_concentration.length
        = cfg.n_points ∧
    (run_population_simulation O I drug pop cfg).std_concentration.length
        = cfg.n_points ∧
    (run_population_simulation O I drug pop cfg).ci_lower.length = cfg.n_points ∧
    (run_population_simulation O I drug pop cfg).ci_upper.length = cfg.n_points ∧
    (run_population_simulation O I drug pop cfg).cmax_distribution.length
        = pop.length ∧
    (run_population_simulation O I drug pop cfg).auc_distribution.length
        = pop.length ∧
    (∀ i (h : i < pop.length),
        (run_population_simulation O I drug pop cfg).cmax_distribution.getD i 0
            = (solve O I drug (pop.get ⟨i, h⟩) cfg).pk_metrics.cmax ∧
        (run_population_simulation O I drug pop cfg).auc_distribution.getD i 0
            = (solve O I drug (pop.get ⟨i, h⟩) cfg).pk_metrics.auc) := by
  have hQ : ((cfg.n_points : ℚ) - 1) ≠ 0 := by
    have h2 : (2 : ℚ) ≤ (cfg.n_points : ℚ) := by exact_mod_cast hn
    linarith
  refine ⟨?_, fun phys => rfl, linspace_length _ _, ?_, ?_, ?_, ?_, ?_, ?_, ?_,
    ?_, ?_, ?_, ?_, ?_⟩
  · rcases pop with _ | ⟨p, rest⟩
    · exact absurd rfl hpop
    · rfl
  · rw [linspace_getD cfg.t_max (show 0 < cfg.n_points by omega)]
    norm_num
  · rw [linspace_getD cfg.t_max (show cfg.n_points - 1 < cfg.n_points by omega)]
    have hc : ((cfg.n_points - 1 : ℕ) : ℚ) = (cfg.n_points : ℚ) - 1 := by
      rw [Nat.cast_sub (by omega), Nat.cast_one]
    rw [hc, mul_div_assoc, div_self hQ, mul_one]
  · intro i h
    rw [linspace_getD cfg.t_max h, linspace_getD cfg.t_max (by omega)]
    have hc : ((i + 1 : ℕ) : ℚ) = (i : ℚ) + 1 := by push_cast; ring
    rw [hc, div_sub_div_same]
    congr 1
    ring
  · simp [run_population_simulation]
  · intro row hr
    simp only [run_population_simulation, List.map_map] at hr
    obtain ⟨phys, hphys, rfl⟩ := List.mem_map.mp hr
    have hcp : ((fun r => SolveResult.c_plasma r) ∘ fun phys => solve O I drug phys cfg)
          phys
        = (I (ode_system (solve_params O drug phys))
            (initial_conditions cfg.route cfg.dose (solve_params O drug phys).V_c)
            (linspace cfg.t_max cfg.n_points)).map (fun y => y.2.1 * 1000) := rfl
    rw [hcp, List.length_map, hI, linspace_length]
  · simp [run_population_simulation]
  · simp [run_population_simulation]
  · simp [run_population_simulation]
  · simp [run_population_simulation]
  · simp [run_population_simulation]
  · simp [run_population_simulation]
  · intro i h
    constructor
    · show (((pop.map fun phys => solve O I drug phys cfg).map
          fun r => r.pk_metrics).map PKMetrics.cmax).getD i 0 = _
      rw [List.map_map, List.map_map, map_getD_of_lt _ pop i h]
      rfl
    · show (((pop.map fun phys => solve O I drug phys cfg).map
          fun r => r.pk_metrics).map PKMetrics.auc).getD i 0 = _
      rw [List.map_map, List.map_map, map_getD_of_lt _ pop i h]
      rfl

/-- C6 witness: a singleton cohort, a 3-point grid over [0, 6], and a
constant-state shape-correct integrator. -/
theorem claim_C6_witness :
    (run_population_simulation ⟨fun _ => 0, fun _ _ => 0, fun _ => 0, 0⟩
        (fun _ y0 ts => ts.map fun _ => y0) {} [⟨70, 3, 3/2, 90, 10, 0, 1⟩]
        ⟨100, "oral", 6, 3⟩).time = some (linspace 6 3) ∧
    (run_population_simulation ⟨fun _ => 0, fun _ _ => 0, fun _ => 0, 0⟩
        (fun _ y0 ts => ts.map fun _ => y0) {} [⟨70, 3, 3/2, 90, 10, 0, 1⟩]
        ⟨100, "oral", 6, 3⟩).mean_concentration.length = 3 ∧
    (run_population_simulation ⟨fun _ => 0, fun _ _ => 0, fun _ => 0, 0⟩
        (fun _ y0 ts => ts.map fun _ => y0) {} [⟨70, 3, 3/2, 90, 10, 0, 1⟩]
        ⟨100, "oral", 6, 3⟩).cmax_distribution.length = 1 := by
  obtain ⟨h1, h2, h3, h4, h5, h6, h7, h8, h9, h10, h11, h12, h13, h14, h15⟩ :=
    claim_C6_population_result_shape ⟨fun _ => 0, fun _ _ => 0, fun _ => 0, 0⟩
      (fun _ y0 ts => ts.map fun _ => y0) {} [⟨70, 3, 3/2, 90, 10, 0, 1⟩]
      ⟨100, "oral", 6, 3⟩ (fun f y0 ts => List.length_map ts _)
      (by norm_num) (by simp)
  exact ⟨h1, h9, h13⟩

end PGx
